import Mathlib

/-!
Shallow embedding of backend/app.py (TweetUp backend) and proofs about it.

The SQLite store is modelled as plain lists of rows; timestamps are natural
numbers supplied by the caller (CURRENT_TIMESTAMP becomes a `now` argument);
the pseudo-random draws (`random.randint`, `ORDER BY RANDOM() LIMIT 1`) become
explicit draw arguments, with `randint lo hi r` uniform over [lo, hi] as `r`
ranges over a residue class and row selection uniform as the draw ranges over
residues modulo the candidate count.

Two platform facts matter for faithfulness and are modelled as the platform
behaves, not as the schema text suggests:
  * Python's sqlite3 connections leave SQLite's foreign-key enforcement off
    (the code never executes PRAGMA foreign_keys=ON), so the FOREIGN KEY
    clauses of the schema are declared but inert: inserts and updates with
    dangling tweetbook references commit.
  * Python truthiness: `if x:` on a value read with dict.get is false for
    None, 0 and the empty string alike.
-/

namespace TweetUp

/-- Row of the tweetbooks table (id INTEGER PRIMARY KEY AUTOINCREMENT,
name TEXT UNIQUE NOT NULL, description TEXT, created_at TIMESTAMP). -/
structure Tweetbook where
  id : Int
  name : String
  description : Option String
  created_at : Nat
  deriving DecidableEq

/-- Row of the tweets table (id INTEGER PRIMARY KEY AUTOINCREMENT, tweet_id
TEXT UNIQUE NOT NULL, content TEXT NOT NULL, author TEXT NOT NULL,
tweetbook_id INTEGER nullable, created_at TIMESTAMP, last_shown TIMESTAMP
nullable). -/
structure Tweet where
  id : Int
  tweet_id : String
  content : String
  author : String
  tweetbook_id : Option Int
  created_at : Nat
  last_shown : Option Nat
  deriving DecidableEq

/-- The settings table's single row (id fixed at 1): notification_frequency
TEXT DEFAULT 'hourly', active_tweetbook_id INTEGER nullable, start_time TEXT
DEFAULT '09:00', end_time TEXT DEFAULT '17:00', random_mode BOOLEAN DEFAULT 1.
Only 0/1 is ever stored in random_mode, so it is a Bool here. -/
structure SettingsRow where
  notification_frequency : String
  active_tweetbook_id : Option Int
  start_time : String
  end_time : String
  random_mode : Bool
  deriving DecidableEq

/-- The whole database. Every query against the settings table uses
WHERE id = 1, so the table is its optional single row. -/
structure Store where
  tweetbooks : List Tweetbook
  tweets : List Tweet
  settings : Option SettingsRow
  deriving DecidableEq

def emptyStore : Store := ⟨[], [], none⟩

/-- Python truthiness of an optional string (`if s:`): false for a missing
value and for the empty string. -/
def truthyStr : Option String → Bool
  | some s => s != ""
  | none => false

/-- Python truthiness of an optional integer (`if n:`): false for a missing
value and for 0. -/
def truthyInt : Option Int → Bool
  | some n => n != 0
  | none => false

/-- The default tweetbook inserted by init_db:
INSERT OR IGNORE INTO tweetbooks (id, name, description)
VALUES (1, 'Default', 'Your default collection of tweets'). -/
def defaultTweetbook (now : Nat) : Tweetbook :=
  ⟨1, "Default", some "Your default collection of tweets", now⟩

/-- The settings row inserted by init_db, with the schema's column defaults:
INSERT OR IGNORE INTO settings (id, active_tweetbook_id) VALUES (1, 1). -/
def defaultSettingsRow : SettingsRow :=
  ⟨"hourly", some 1, "09:00", "17:00", true⟩

/-- init_db (app.py lines 20-70): CREATE TABLE IF NOT EXISTS for the three
tables (table creation is idempotent and rowless, so it leaves no trace in
this row-level model), then the two INSERT OR IGNORE statements. The
tweetbook insert is ignored when a row already has id 1 (PRIMARY KEY) or
name 'Default' (UNIQUE); the settings insert is ignored when the row with
id 1 exists. -/
def init_db (st : Store) (now : Nat) : Store :=
  { tweetbooks :=
      if st.tweetbooks.any (fun b => b.id == 1 || b.name == "Default") then
        st.tweetbooks
      else
        st.tweetbooks ++ [defaultTweetbook now],
    tweets := st.tweets,
    settings := some (st.settings.getD defaultSettingsRow) }

/-- random.randint lo hi: uniform over [lo, hi], both ends included; the
draw seed r is made explicit. -/
def randint (lo hi : Nat) (r : Nat) : Nat := lo + r % (hi - lo + 1)

/-- Helper of pySplit: the segments of the remaining characters, the current
segment accumulated in reverse. -/
def pySplitAux (sep : Char) : List Char → List Char → List String
  | [], acc => [String.mk acc.reverse]
  | c :: cs, acc =>
      if c = sep then String.mk acc.reverse :: pySplitAux sep cs []
      else pySplitAux sep cs (c :: acc)

/-- Python str.split with a one-character separator: 'a:b'.split(':') is
['a','b'], '::'.split(':') is ['','',''], ''.split(':') is ['']. -/
def pySplit (sep : Char) (s : String) : List String := pySplitAux sep s.data []

/-- The numeric value of a decimal digit character. -/
def charDigit? (c : Char) : Option Nat :=
  if c = '0' then some 0 else if c = '1' then some 1 else if c = '2' then some 2
  else if c = '3' then some 3 else if c = '4' then some 4 else if c = '5' then some 5
  else if c = '6' then some 6 else if c = '7' then some 7 else if c = '8' then some 8
  else if c = '9' then some 9 else none

/-- Helper of pyToNat?: left fold over the digit characters. -/
def pyToNatAux : List Char → Nat → Option Nat
  | [], acc => some acc
  | c :: cs, acc =>
      match charDigit? c with
      | some d => pyToNatAux cs (acc * 10 + d)
      | none => none

/-- Python int(s) for a non-negative decimal string, as CronTrigger parses a
plain integer field: none (a raised ValueError) for the empty string or any
non-digit character; leading zeros are fine ('09' parses to 9). -/
def pyToNat? (s : String) : Option Nat :=
  match s.data with
  | [] => none
  | cs => pyToNatAux cs 0

/-- An APScheduler trigger as update_scheduler builds them: IntervalTrigger
with a minute count, CronTrigger(hour='9-17', minute='0') as an hour range,
or CronTrigger built from the two plain integer fields parsed out of
start_time. -/
inductive Trigger
  | interval (minutes : Nat)
  | cronRange (loHour hiHour : Nat) (minute : Nat)
  | cronAt (hour : Nat) (minute : Nat)
  deriving DecidableEq

/-- Whether a cron-style trigger fires at wall-clock hour h, minute m.
Interval triggers are not tied to the wall clock. -/
def Trigger.firesAt : Trigger → Nat → Nat → Bool
  | Trigger.interval _, _, _ => false
  | Trigger.cronRange lo hi mi, h, m => decide (lo ≤ h) && decide (h ≤ hi) && decide (m = mi)
  | Trigger.cronAt hh mi, h, m => decide (h = hh) && decide (m = mi)

/-- A scheduled job: scheduler.add_job(show_tweet_notification, trigger,
id='show_tweet'). -/
structure Job where
  id : String
  trigger : Trigger
  deriving DecidableEq

/-- update_scheduler (app.py lines 142-190). Removes all existing jobs, reads
the settings row, and schedules the single show_tweet job from it; r is the
seed of the random.randint draw. The result is none when the Python code
raises: unpacking start_time.split(':') into two names raises ValueError
unless there are exactly two parts, and CronTrigger rejects a field that is
not a plain integer (richer cron field expressions never arise from the
HH:MM strings this field holds, so they are out of scope here). -/
def update_scheduler (st : Store) (jobs : List Job) (r : Nat) : Option (List Job) :=
  -- scheduler.remove_all_jobs()
  let cleared : List Job := (fun _ => []) jobs
  match st.settings with
  | none => some cleared
  | some row =>
    if row.random_mode then
      let interval_minutes :=
        if row.notification_frequency = "hourly" then randint 30 90 r
        else if row.notification_frequency = "daily" then randint 720 1440 r
        else randint 15 180 r
      some (cleared ++ [⟨"show_tweet", Trigger.interval interval_minutes⟩])
    else
      if row.notification_frequency = "hourly" then
        some (cleared ++ [⟨"show_tweet", Trigger.cronRange 9 17 0⟩])
      else if row.notification_frequency = "daily" then
        match pySplit ':' row.start_time with
        | [hs, ms] =>
          match pyToNat? hs, pyToNat? ms with
          | some h, some m => some (cleared ++ [⟨"show_tweet", Trigger.cronAt h m⟩])
          | _, _ => none
        | _ => none
      else
        -- 'custom' (and any other frequency value): no branch adds a job
        some cleared

/-- The four columns get_random_tweet selects and returns as a dict. -/
structure TweetView where
  id : Int
  tweet_id : String
  content : String
  author : String
  deriving DecidableEq

def tweetView (t : Tweet) : TweetView := ⟨t.id, t.tweet_id, t.content, t.author⟩

/-- UPDATE tweets SET last_shown = CURRENT_TIMESTAMP WHERE id = i, applied
to one row. -/
def markShown (i : Int) (now : Nat) (t : Tweet) : Tweet :=
  if t.id = i then { t with last_shown := some now } else t

/-- The candidate rows of get_random_tweet's SELECT: WHERE tweetbook_id = ?
when the argument is truthy (`if tweetbook_id:`), the whole table otherwise.
A NULL tweetbook_id column never matches the non-null parameter. -/
def grtCandidates (st : Store) (tweetbook_id : Option Int) : List Tweet :=
  if truthyInt tweetbook_id then
    st.tweets.filter (fun t => decide (t.tweetbook_id = tweetbook_id))
  else
    st.tweets

/-- What a call to get_random_tweet leaves behind: the returned dict (none
when no row matched), the database afterwards, and whether the sqlite
connection the call opened was closed before it returned. -/
structure GetRandomResult where
  result : Option TweetView
  store : Store
  connClosed : Bool
  deriving DecidableEq

/-- The row ORDER BY RANDOM() LIMIT 1 hands to fetchone(): the candidate list
indexed at choice % length, so each candidate is picked for exactly one
residue class of the draw; none exactly when the candidate list is empty. -/
def grtSelected (st : Store) (tweetbook_id : Option Int) (choice : Nat) : Option Tweet :=
  (grtCandidates st tweetbook_id)[choice % (grtCandidates st tweetbook_id).length]?

/-- get_random_tweet (app.py lines 81-114). On the found path the code
updates last_shown, commits and returns WITHOUT closing the connection
(conn.close() is only reached on the fall-through path). -/
def get_random_tweet (st : Store) (tweetbook_id : Option Int) (choice now : Nat) :
    GetRandomResult :=
  match grtSelected st tweetbook_id choice with
  | some t =>
      { result := some (tweetView t),
        store := { st with tweets := st.tweets.map (markShown t.id now) },
        connClosed := false }
  | none => { result := none, store := st, connClosed := true }

/-- What a call to show_tweet_notification leaves behind: its return value,
what it printed to the console sink, the database afterwards, whether its own
connection was closed, and whether the connection of the get_random_tweet
call it made (when it made one) was closed. -/
structure NotifyResult where
  result : Option TweetView
  emitted : Option TweetView
  store : Store
  connClosed : Bool
  innerConnClosed : Option Bool
  deriving DecidableEq

/-- show_tweet_notification (app.py lines 117-139). SELECT active_tweetbook_id
FROM settings WHERE id = 1: fetchone() is a row exactly when the settings row
exists (the one-column row is truthy even when the column is NULL). When a
tweet is found the function prints it and returns it without reaching
conn.close(); otherwise it falls through, closes and returns None. -/
def show_tweet_notification (st : Store) (choice now : Nat) : NotifyResult :=
  match st.settings with
  | none => { result := none, emitted := none, store := st,
              connClosed := true, innerConnClosed := none }
  | some row =>
      match get_random_tweet st row.active_tweetbook_id choice now with
      | ⟨some t, store2, closed2⟩ =>
          { result := some t, emitted := some t, store := store2,
            connClosed := false, innerConnClosed := some closed2 }
      | ⟨none, store2, closed2⟩ =>
          { result := none, emitted := none, store := store2,
            connClosed := true, innerConnClosed := some closed2 }

/-- The body of a PUT /api/settings request, as request.json delivers it:
each field is what data.get returns, so an absent key and an explicit JSON
null both read back as none. -/
structure Patch where
  notification_frequency : Option String
  active_tweetbook_id : Option Int
  start_time : Option String
  end_time : Option String
  random_mode : Option Bool
  deriving DecidableEq

def emptyPatch : Patch := ⟨none, none, none, none, none⟩

/-- Whether update_settings appends at least one SET clause: a truthiness
check (`if field:`) for the four data fields, a presence check
(`if random_mode is not None:`) for random_mode. -/
def patchSupplied (p : Patch) : Bool :=
  truthyStr p.notification_frequency || truthyInt p.active_tweetbook_id ||
    truthyStr p.start_time || truthyStr p.end_time || p.random_mode.isSome

/-- One string column of the dynamic UPDATE: written only when the supplied
value is truthy (absent or empty-string input leaves the column alone). -/
def patchStr (old : String) : Option String → String
  | some s => if s = "" then old else s
  | none => old

/-- One integer column of the dynamic UPDATE: written only when the supplied
value is truthy (absent or zero input leaves the column alone). -/
def patchInt (old : Option Int) : Option Int → Option Int
  | some n => if n = 0 then old else some n
  | none => old

/-- The random_mode column of the dynamic UPDATE: written whenever the field
was supplied at all (`is not None`), `1 if random_mode else 0`. -/
def patchBool (old : Bool) : Option Bool → Bool
  | some b => b
  | none => old

/-- The settings row after update_settings' UPDATE statement ran against it. -/
def applyRowPatch (row : SettingsRow) (p : Patch) : SettingsRow :=
  { notification_frequency := patchStr row.notification_frequency p.notification_frequency,
    active_tweetbook_id := patchInt row.active_tweetbook_id p.active_tweetbook_id,
    start_time := patchStr row.start_time p.start_time,
    end_time := patchStr row.end_time p.end_time,
    random_mode := patchBool row.random_mode p.random_mode }

/-- What a PUT /api/settings call leaves behind: the database, whether the
UPDATE ... WHERE id = 1 statement was executed and committed, and whether
update_scheduler() was invoked. The route always answers 200 with a
confirmation message, so there is no failure outcome. -/
structure UpdateSettingsResult where
  store : Store
  rowWritten : Bool
  recomputeInvoked : Bool
  deriving DecidableEq

/-- update_settings (app.py lines 315-359). When at least one SET clause was
collected, the UPDATE runs (with no FOREIGN KEY check: the connection leaves
SQLite's enforcement off) and update_scheduler() is invoked; otherwise the
function just closes the connection and answers. -/
def update_settings (st : Store) (p : Patch) : UpdateSettingsResult :=
  if patchSupplied p then
    { store := { st with settings := st.settings.map (fun row => applyRowPatch row p) },
      rowWritten := true,
      recomputeInvoked := true }
  else
    { store := st, rowWritten := false, recomputeInvoked := false }

/-- The joined record GET /api/settings serializes. -/
structure SettingsView where
  notification_frequency : String
  start_time : String
  end_time : String
  random_mode : Bool
  active_tweetbook_id : Option Int
  active_tweetbook_name : String
  deriving DecidableEq

/-- An uncaught Python exception escaping a route handler. -/
inductive PyFault
  | typeError
  deriving DecidableEq

/-- Outcome of a call that either returns a value or lets a Python exception
propagate uncaught. -/
inductive PyResult (A : Type)
  | ok (a : A)
  | raised (e : PyFault)
  deriving DecidableEq

/-- get_settings (app.py lines 295-312). SELECT ... FROM settings s JOIN
tweetbooks t ON s.active_tweetbook_id = t.id WHERE s.id = 1; a NULL
active_tweetbook_id joins to nothing. dict(cursor.fetchone()) raises an
uncaught TypeError when fetchone() returned None, i.e. whenever the settings
row is missing or no tweetbook matches its active_tweetbook_id; no handler
anywhere catches it. -/
def get_settings (st : Store) : PyResult SettingsView :=
  match st.settings with
  | none => PyResult.raised PyFault.typeError
  | some row =>
      match st.tweetbooks.find? (fun b => decide (row.active_tweetbook_id = some b.id)) with
      | some b =>
          PyResult.ok ⟨row.notification_frequency, row.start_time, row.end_time,
                       row.random_mode, row.active_tweetbook_id, b.name⟩
      | none => PyResult.raised PyFault.typeError

/-- The id AUTOINCREMENT hands the next tweets row (one larger than the
largest id in use; the sqlite_sequence bookkeeping is not modelled beyond
that, which is exact for stores that only grew through this API). -/
def nextTweetId (st : Store) : Int :=
  (st.tweets.map Tweet.id).foldr max 0 + 1

/-- Outcome of POST /api/tweets. -/
inductive SaveTweetOutcome
  | created (t : Tweet)
  | duplicateTweet
  | missingField
  deriving DecidableEq

structure SaveTweetResult where
  outcome : SaveTweetOutcome
  store : Store
  deriving DecidableEq

/-- save_tweet (app.py lines 238-270). The route rejects a request whose
tweet_id, content or author is missing or falsy; tweetbook_id is
data.get('tweetbook_id', 1), passed here with the default already applied.
The INSERT raises IntegrityError only for a duplicate tweet_id (UNIQUE):
the FOREIGN KEY clause on tweetbook_id is not enforced, since the connection
never turns SQLite's foreign-key enforcement on, so a dangling tweetbook_id
commits. -/
def save_tweet (st : Store) (tweet_id content author : String)
    (tweetbook_id : Option Int) (now : Nat) : SaveTweetResult :=
  if tweet_id = "" || content = "" || author = "" then
    ⟨SaveTweetOutcome.missingField, st⟩
  else if st.tweets.any (fun t => t.tweet_id == tweet_id) then
    ⟨SaveTweetOutcome.duplicateTweet, st⟩
  else
    let t : Tweet := ⟨nextTweetId st, tweet_id, content, author, tweetbook_id, now, none⟩
    ⟨SaveTweetOutcome.created t, { st with tweets := st.tweets ++ [t] }⟩

/-- One module-toplevel step of backend/app.py, in source order: init_db()
(line 74), BackgroundScheduler().start() (lines 77-78), update_scheduler()
(line 194). A recompute event records the settings row the call read. -/
inductive StartupEvent
  | initDbCall
  | schedulerStart
  | recomputeRead (settingsRead : Option SettingsRow)
  deriving DecidableEq

/-- The module top level of backend/app.py, run against the database state
st0 the process finds on disk at time now: init_db, scheduler start, then
the single update_scheduler() call, which reads the settings init_db left. -/
def startupTrace (st0 : Store) (now : Nat) : List StartupEvent :=
  let st1 := init_db st0 now
  [StartupEvent.initDbCall, StartupEvent.schedulerStart,
   StartupEvent.recomputeRead st1.settings]

/-- The settings rows read by the update_scheduler calls of a trace, in
order: one entry per invocation. -/
def recomputeReads : List StartupEvent → List (Option SettingsRow)
  | [] => []
  | StartupEvent.recomputeRead s :: es => s :: recomputeReads es
  | _ :: es => recomputeReads es

/-- The store as init_db leaves it on first boot (empty database file). -/
def freshStore : Store := init_db emptyStore 0

/-- A store whose only tweet sits in the default tweetbook. -/
def oneTweetStore : Store :=
  { freshStore with tweets := [⟨1, "T1", "hello", "ann", some 1, 0, none⟩] }

end TweetUp

namespace TweetUp

/-! ### Helper lemmas -/

theorem patchStr_not_truthy (old : String) (o : Option String)
    (h : truthyStr o = false) : patchStr old o = old := by
  cases o with
  | none => rfl
  | some s =>
    simp [truthyStr] at h
    simp [patchStr, h]

theorem patchInt_not_truthy (old : Option Int) (o : Option Int)
    (h : truthyInt o = false) : patchInt old o = old := by
  cases o with
  | none => rfl
  | some n =>
    simp [truthyInt] at h
    simp [patchInt, h]

theorem applyRowPatch_not_supplied (row : SettingsRow) (p : Patch)
    (h : patchSupplied p = false) : applyRowPatch row p = row := by
  obtain ⟨f1, f2, f3, f4, f5⟩ := p
  simp only [patchSupplied, Bool.or_eq_false_iff] at h
  obtain ⟨⟨⟨⟨h1, h2⟩, h3⟩, h4⟩, h5⟩ := h
  have hrm : f5 = none := by
    cases f5
    · rfl
    · simp at h5
  subst hrm
  simp [applyRowPatch, patchStr_not_truthy _ _ h1, patchInt_not_truthy _ _ h2,
    patchStr_not_truthy _ _ h3, patchStr_not_truthy _ _ h4, patchBool]

theorem markShown_mem_self {l : List Tweet} {t : Tweet} (now : Nat) (ht : t ∈ l) :
    { t with last_shown := some now } ∈ l.map (markShown t.id now) := by
  have : markShown t.id now t = { t with last_shown := some now } := by
    simp [markShown]
  exact this ▸ List.mem_map_of_mem _ ht

theorem map_markShown_lastShown {l : List Tweet} {u : Tweet} {i : Int} {now : Nat}
    (hu : u ∈ l.map (markShown i now)) (hid : u.id = i) : u.last_shown = some now := by
  obtain ⟨w, hw, rfl⟩ := List.mem_map.mp hu
  unfold markShown at hid ⊢
  by_cases h : w.id = i
  · simp [h]
  · simp [h] at hid

theorem grtCandidates_subset {st : Store} {tbId : Option Int} {t : Tweet}
    (ht : t ∈ grtCandidates st tbId) : t ∈ st.tweets := by
  unfold grtCandidates at ht
  by_cases h : truthyInt tbId
  · rw [if_pos h] at ht
    exact List.mem_of_mem_filter ht
  · rwa [if_neg h] at ht

/-! ### The claims -/

/-- C1: update_scheduler derives the single show_tweet job from the settings
row exactly as specified: with random_mode on, one interval job whose minute
count lies in [30,90] for frequency 'hourly', in [720,1440] for 'daily' and
in [15,180] for any other frequency; with random_mode off, a cron job firing
on the hour during hours 9 through 17 for 'hourly' (whatever start_time and
end_time hold), a cron job at exactly the hour and minute parsed from
start_time for 'daily', and no job at all for 'custom'.  The equalities also
show every previously registered job is removed first. -/
theorem c1_scheduler_derivation (st : Store) (jobs : List Job) (r : Nat)
    (row : SettingsRow) (hrow : st.settings = some row) :
    (row.random_mode = true → row.notification_frequency = "hourly" →
      ∃ m, update_scheduler st jobs r = some [⟨"show_tweet", Trigger.interval m⟩] ∧
        30 ≤ m ∧ m ≤ 90) ∧
    (row.random_mode = true → row.notification_frequency = "daily" →
      ∃ m, update_scheduler st jobs r = some [⟨"show_tweet", Trigger.interval m⟩] ∧
        720 ≤ m ∧ m ≤ 1440) ∧
    (row.random_mode = true → row.notification_frequency ≠ "hourly" →
      row.notification_frequency ≠ "daily" →
      ∃ m, update_scheduler st jobs r = some [⟨"show_tweet", Trigger.interval m⟩] ∧
        15 ≤ m ∧ m ≤ 180) ∧
    (row.random_mode = false → row.notification_frequency = "hourly" →
      update_scheduler st jobs r = some [⟨"show_tweet", Trigger.cronRange 9 17 0⟩] ∧
      ∀ h m : Nat, (Trigger.cronRange 9 17 0).firesAt h m = true ↔
        (9 ≤ h ∧ h ≤ 17 ∧ m = 0)) ∧
    (row.random_mode = false → row.notification_frequency = "daily" →
      ∀ (hs ms : String) (h m : Nat),
        pySplit ':' row.start_time = [hs, ms] →
        pyToNat? hs = some h → pyToNat? ms = some m →
        update_scheduler st jobs r = some [⟨"show_tweet", Trigger.cronAt h m⟩] ∧
        ∀ h2 m2 : Nat, (Trigger.cronAt h m).firesAt h2 m2 = true ↔ (h2 = h ∧ m2 = m)) ∧
    (row.random_mode = false → row.notification_frequency = "custom" →
      update_scheduler st jobs r = some []) := by
  refine ⟨?_, ?_, ?_, ?_, ?_, ?_⟩
  · intro hrand hfreq
    refine ⟨randint 30 90 r, ?_, ?_, ?_⟩
    · simp [update_scheduler, hrow, hrand, hfreq]
    · unfold randint; omega
    · unfold randint; omega
  · intro hrand hfreq
    refine ⟨randint 720 1440 r, ?_, ?_, ?_⟩
    · simp [update_scheduler, hrow, hrand, hfreq]
    · unfold randint; omega
    · unfold randint; omega
  · intro hrand hf1 hf2
    refine ⟨randint 15 180 r, ?_, ?_, ?_⟩
    · simp [update_scheduler, hrow, hrand, hf1, hf2]
    · unfold randint; omega
    · unfold randint; omega
  · intro hrand hfreq
    constructor
    · simp [update_scheduler, hrow, hrand, hfreq]
    · intro h m
      simp [Trigger.firesAt, and_assoc]
  · intro hrand hfreq hs ms h m hsplit hh hm
    constructor
    · simp [update_scheduler, hrow, hrand, hfreq, hsplit, hh, hm]
    · intro h2 m2
      simp [Trigger.firesAt]
  · intro hrand hfreq
    simp [update_scheduler, hrow, hrand, hfreq]

/-- Witness for C1: a concrete daily fixed-time settings row with
start_time 09:30 replaces a stale job with the 9:30 cron job. -/
theorem c1_scheduler_derivation_witness :
    update_scheduler ⟨[], [], some ⟨"daily", some 1, "09:30", "17:00", false⟩⟩
        [⟨"stale", Trigger.interval 999⟩] 3 =
      some [⟨"show_tweet", Trigger.cronAt 9 30⟩] :=
  ((c1_scheduler_derivation ⟨[], [], some ⟨"daily", some 1, "09:30", "17:00", false⟩⟩
      [⟨"stale", Trigger.interval 999⟩] 3 ⟨"daily", some 1, "09:30", "17:00", false⟩
      rfl).2.2.2.2.1 rfl rfl "09" "30" 9 30 (by decide) (by decide) (by decide)).1

/-- C2: the module top level invokes update_scheduler exactly once, reading
the settings init_db left (the default row on a fresh database); an
update_settings call with an empty patch succeeds while writing nothing and
not invoking update_scheduler; and any call that changed the stored settings
did invoke it. -/
theorem c2_recompute_invocations (st0 : Store) (now : Nat) :
    recomputeReads (startupTrace st0 now) = [(init_db st0 now).settings] ∧
    recomputeReads (startupTrace emptyStore now) = [some defaultSettingsRow] ∧
    (∀ st : Store, update_settings st emptyPatch = ⟨st, false, false⟩) ∧
    (∀ (st : Store) (p : Patch),
      (update_settings st p).store.settings ≠ st.settings →
      (update_settings st p).recomputeInvoked = true) := by
  refine ⟨rfl, rfl, fun st => rfl, ?_⟩
  intro st p h
  by_cases hs : patchSupplied p
  · simp [update_settings, hs]
  · simp [update_settings, hs] at h

/-- Witness for C2: a patch that changes the frequency invokes the
recomputation. -/
theorem c2_recompute_invocations_witness :
    (update_settings freshStore ⟨some "daily", none, none, none, none⟩).recomputeInvoked
      = true :=
  (c2_recompute_invocations emptyStore 0).2.2.2 freshStore
    ⟨some "daily", none, none, none, none⟩ (by decide)

/-- C3 counterexample: start_time supplied explicitly as the empty string is
dropped by the truthiness check, so the stored value stays 09:00 instead of
taking the supplied value — presence is NOT determined by explicit supply
for this field. -/
theorem c3_supplied_empty_ignored :
    (update_settings freshStore ⟨none, none, some "", none, none⟩).store.settings =
      some defaultSettingsRow ∧
    defaultSettingsRow.start_time = "09:00" ∧ ("09:00" : String) ≠ "" :=
  ⟨rfl, rfl, by decide⟩

/-- C3 as amended: update_settings writes exactly the fields whose supplied
value is truthy (a non-empty string, a non-zero id) — an explicitly supplied
empty string or zero is ignored like an absent field — while random_mode
alone is presence-checked, so an explicit false is applied; every other field
keeps its previous value, and updating only random_mode to false leaves the
four other fields unchanged. -/
theorem c3_partial_update (st : Store) (row : SettingsRow) (p : Patch)
    (hrow : st.settings = some row) :
    (update_settings st p).store.settings = some (applyRowPatch row p) ∧
    (∀ v, p.notification_frequency = some v → v ≠ "" →
      (applyRowPatch row p).notification_frequency = v) ∧
    (p.notification_frequency = none ∨ p.notification_frequency = some "" →
      (applyRowPatch row p).notification_frequency = row.notification_frequency) ∧
    (∀ n : Int, p.active_tweetbook_id = some n → n ≠ 0 →
      (applyRowPatch row p).active_tweetbook_id = some n) ∧
    (p.active_tweetbook_id = none ∨ p.active_tweetbook_id = some 0 →
      (applyRowPatch row p).active_tweetbook_id = row.active_tweetbook_id) ∧
    (∀ v, p.start_time = some v → v ≠ "" → (applyRowPatch row p).start_time = v) ∧
    (p.start_time = none ∨ p.start_time = some "" →
      (applyRowPatch row p).start_time = row.start_time) ∧
    (∀ v, p.end_time = some v → v ≠ "" → (applyRowPatch row p).end_time = v) ∧
    (p.end_time = none ∨ p.end_time = some "" →
      (applyRowPatch row p).end_time = row.end_time) ∧
    (∀ b, p.random_mode = some b → (applyRowPatch row p).random_mode = b) ∧
    (p.random_mode = none → (applyRowPatch row p).random_mode = row.random_mode) ∧
    ((update_settings st ⟨none, none, none, none, some false⟩).store.settings =
      some { row with random_mode := false }) := by
  refine ⟨?_, ?_, ?_, ?_, ?_, ?_, ?_, ?_, ?_, ?_, ?_, ?_⟩
  · by_cases hs : patchSupplied p
    · simp [update_settings, hs, hrow]
    · simp [update_settings, hs, hrow, applyRowPatch_not_supplied row p (by simpa using hs)]
  · intro v hv hne; simp [applyRowPatch, patchStr, hv, hne]
  · rintro (h | h) <;> simp [applyRowPatch, patchStr, h]
  · intro n hn hne; simp [applyRowPatch, patchInt, hn, hne]
  · rintro (h | h) <;> simp [applyRowPatch, patchInt, h]
  · intro v hv hne; simp [applyRowPatch, patchStr, hv, hne]
  · rintro (h | h) <;> simp [applyRowPatch, patchStr, h]
  · intro v hv hne; simp [applyRowPatch, patchStr, hv, hne]
  · rintro (h | h) <;> simp [applyRowPatch, patchStr, h]
  · intro b hb; simp [applyRowPatch, patchBool, hb]
  · intro hb; simp [applyRowPatch, patchBool, hb]
  · simp [update_settings, patchSupplied, truthyStr, truthyInt, hrow]
    rfl

/-- Witness for C3: updating only random_mode to false on the default row
flips that field and keeps the rest. -/
theorem c3_partial_update_witness :
    (update_settings freshStore ⟨none, none, none, none, some false⟩).store.settings =
      some { defaultSettingsRow with random_mode := false } :=
  (c3_partial_update freshStore defaultSettingsRow ⟨none, none, none, none, some false⟩
    rfl).2.2.2.2.2.2.2.2.2.2.2

end TweetUp

namespace TweetUp

/-- C4: on a non-empty candidate set (and a genuine tweetbook filter — ids
the store assigns are positive), get_random_tweet returns a member of the
filtered candidate set, whose tweetbook_id matches the filter when one was
supplied; every candidate is reachable for some draw (the selection is the
draw taken modulo the candidate count, one residue class per candidate); the
only write sets the selected tweet's last_shown to the current time, leaving
the tweetbooks, the settings and every other tweet untouched; and after any
later call the selected tweet's last_shown is still some time ≥ now. -/
theorem c4_random_selection (st : Store) (tbId : Option Int) (choice now : Nat)
    (g : GetRandomResult)
    (hpos : ∀ n : Int, tbId = some n → 0 < n)
    (hne : grtCandidates st tbId ≠ [])
    (hg : get_random_tweet st tbId choice now = g) :
    ∃ t, t ∈ grtCandidates st tbId ∧
      g.result = some (tweetView t) ∧
      (∀ n : Int, tbId = some n → t.tweetbook_id = some n) ∧
      g.store.tweetbooks = st.tweetbooks ∧
      g.store.settings = st.settings ∧
      { t with last_shown := some now } ∈ g.store.tweets ∧
      (∀ u ∈ g.store.tweets, u.id = t.id → u.last_shown = some now) ∧
      (∀ u ∈ st.tweets, u.id ≠ t.id → u ∈ g.store.tweets) ∧
      (∀ u ∈ g.store.tweets, u.id ≠ t.id → u ∈ st.tweets) ∧
      (∀ u ∈ grtCandidates st tbId, ∃ c, c < (grtCandidates st tbId).length ∧
        (get_random_tweet st tbId c now).result = some (tweetView u)) ∧
      (∀ choice2 now2 : Nat, now ≤ now2 →
        ∀ u ∈ (get_random_tweet g.store tbId choice2 now2).store.tweets,
          u.id = t.id → ∃ v, u.last_shown = some v ∧ now ≤ v) := by
  subst hg
  have hlen : 0 < (grtCandidates st tbId).length := List.length_pos.mpr hne
  have hidx : choice % (grtCandidates st tbId).length < (grtCandidates st tbId).length :=
    Nat.mod_lt _ hlen
  set t := (grtCandidates st tbId)[choice % (grtCandidates st tbId).length] with hts
  have hget : grtSelected st tbId choice = some t :=
    List.getElem?_eq_getElem hidx
  have htmem : t ∈ grtCandidates st tbId := List.getElem_mem hidx
  have hcall : get_random_tweet st tbId choice now =
      { result := some (tweetView t),
        store := { st with tweets := st.tweets.map (markShown t.id now) },
        connClosed := false } := by
    unfold get_random_tweet
    rw [hget]
  rw [hcall]
  refine ⟨t, htmem, rfl, ?_, rfl, rfl, ?_, ?_, ?_, ?_, ?_, ?_⟩
  · intro n hn
    subst hn
    have hn0 : (0 : Int) < n := hpos n rfl
    have htruthy : truthyInt (some n) = true := by
      have hne0 : n ≠ 0 := by omega
      simp [truthyInt, hne0]
    unfold grtCandidates at htmem
    rw [if_pos htruthy] at htmem
    have := List.of_mem_filter htmem
    exact of_decide_eq_true this
  · exact markShown_mem_self now (grtCandidates_subset htmem)
  · intro u hu hid
    exact map_markShown_lastShown hu hid
  · intro u hu hid
    have : markShown t.id now u = u := by simp [markShown, hid]
    exact this ▸ List.mem_map_of_mem _ hu
  · intro u hu hid
    obtain ⟨w, hw, rfl⟩ := List.mem_map.mp hu
    unfold markShown at hid ⊢
    by_cases h : w.id = t.id
    · simp [h] at hid
    · simpa [h] using hw
  · intro u hu
    obtain ⟨i, hi, rfl⟩ := List.getElem_of_mem hu
    refine ⟨i, hi, ?_⟩
    have hgeti : grtSelected st tbId i = some (grtCandidates st tbId)[i] := by
      unfold grtSelected
      rw [Nat.mod_eq_of_lt hi]
      exact List.getElem?_eq_getElem hi
    unfold get_random_tweet
    rw [hgeti]
  · intro choice2 now2 hle u hu hid
    set st1 : Store := { st with tweets := st.tweets.map (markShown t.id now) } with hst1
    rcases h2 : grtSelected st1 tbId choice2 with _ | t2
    · have hc2 : get_random_tweet st1 tbId choice2 now2 =
          { result := none, store := st1, connClosed := true } := by
        unfold get_random_tweet
        rw [h2]
      rw [hc2] at hu
      exact ⟨now, map_markShown_lastShown hu hid, le_refl now⟩
    · have hc2 : get_random_tweet st1 tbId choice2 now2 =
          { result := some (tweetView t2),
            store := { st1 with tweets := st1.tweets.map (markShown t2.id now2) },
            connClosed := false } := by
        unfold get_random_tweet
        rw [h2]
      rw [hc2] at hu
      obtain ⟨w, hw, rfl⟩ := List.mem_map.mp hu
      by_cases h : w.id = t2.id
      · refine ⟨now2, ?_, hle⟩
        simp [markShown, h]
      · have hww : markShown t2.id now2 w = w := by simp [markShown, h]
        rw [hww] at hid ⊢
        exact ⟨now, map_markShown_lastShown hw hid, le_refl now⟩

/-- Witness for C4: the single tweet of the default tweetbook is selected. -/
theorem c4_random_selection_witness :
    ∃ t, t ∈ grtCandidates oneTweetStore (some 1) ∧
      (get_random_tweet oneTweetStore (some 1) 0 5).result = some (tweetView t) := by
  obtain ⟨t, h1, h2, -⟩ :=
    c4_random_selection oneTweetStore (some 1) 0 5
      (get_random_tweet oneTweetStore (some 1) 0 5)
      (fun n hn => by injection hn with h; omega) (by decide) rfl
  exact ⟨t, h1, h2⟩

/-- C5: when the candidate set is empty — a tweetbook (positive id) holding
no tweets, or no filter over an empty tweet table — get_random_tweet returns
none, leaves the store exactly unchanged, and closes its connection. -/
theorem c5_empty_candidates (st : Store) (tbId : Option Int) (choice now : Nat) :
    (∀ n : Int, tbId = some n → 0 < n →
      st.tweets.filter (fun t => decide (t.tweetbook_id = some n)) = [] →
      get_random_tweet st tbId choice now = ⟨none, st, true⟩) ∧
    (tbId = none → st.tweets = [] →
      get_random_tweet st tbId choice now = ⟨none, st, true⟩) := by
  constructor
  · intro n hn hpos hfilter
    subst hn
    have htruthy : truthyInt (some n) = true := by
      have hne0 : n ≠ 0 := by omega
      simp [truthyInt, hne0]
    have hcand : grtCandidates st (some n) = [] := by
      unfold grtCandidates
      rw [if_pos htruthy]
      exact hfilter
    have hsel : grtSelected st (some n) choice = none := by
      unfold grtSelected
      rw [hcand]
      rfl
    unfold get_random_tweet
    rw [hsel]
  · intro hn hemp
    subst hn
    have hcand : grtCandidates st none = [] := by
      unfold grtCandidates
      simp [truthyInt, hemp]
    have hsel : grtSelected st none choice = none := by
      unfold grtSelected
      rw [hcand]
      rfl
    unfold get_random_tweet
    rw [hsel]

/-- Witness for C5: the fresh store has no tweets, so filtering to the
default tweetbook yields none and no write. -/
theorem c5_empty_candidates_witness :
    get_random_tweet freshStore (some 1) 0 5 = ⟨none, freshStore, true⟩ :=
  (c5_empty_candidates freshStore (some 1) 0 5).1 1 rfl (by decide) rfl

/-- C6 counterexample: after an API-reachable update pointing the settings at
tweetbook 999 (committed, since foreign keys are not enforced), get_settings
does not fail with a handled NotFound: dict(fetchone()) raises an uncaught
TypeError. -/
theorem c6_missing_join_raises :
    get_settings (update_settings freshStore ⟨none, some 999, none, none, none⟩).store =
      PyResult.raised PyFault.typeError := by decide

/-- C6 as amended: get_settings returns the settings row joined with the
matching tweetbook's name when the settings row exists and some tweetbook
carries its active_tweetbook_id; when the settings row is missing, or no
tweetbook matches, the call raises an uncaught TypeError (dict of None)
rather than failing with a handled NotFound error. -/
theorem c6_get_settings (st : Store) :
    (st.settings = none → get_settings st = PyResult.raised PyFault.typeError) ∧
    (∀ row : SettingsRow, st.settings = some row →
      st.tweetbooks.find? (fun b => decide (row.active_tweetbook_id = some b.id)) = none →
      get_settings st = PyResult.raised PyFault.typeError) ∧
    (∀ (row : SettingsRow) (b : Tweetbook), st.settings = some row →
      st.tweetbooks.find? (fun b2 => decide (row.active_tweetbook_id = some b2.id)) = some b →
      get_settings st = PyResult.ok ⟨row.notification_frequency, row.start_time,
        row.end_time, row.random_mode, row.active_tweetbook_id, b.name⟩ ∧
      b ∈ st.tweetbooks ∧ row.active_tweetbook_id = some b.id) := by
  refine ⟨?_, ?_, ?_⟩
  · intro h
    simp only [get_settings, h]
  · intro row hrow hfind
    simp only [get_settings, hrow, hfind]
  · intro row b hrow hfind
    refine ⟨?_, ?_, ?_⟩
    · simp only [get_settings, hrow, hfind]
    · exact List.mem_of_find?_eq_some hfind
    · have hp := List.find?_some hfind
      exact of_decide_eq_true hp

/-- Witness for C6: on the fresh store the join succeeds and carries the
Default tweetbook's name. -/
theorem c6_get_settings_witness :
    get_settings freshStore =
      PyResult.ok ⟨"hourly", "09:00", "17:00", true, some 1, "Default"⟩ :=
  ((c6_get_settings freshStore).2.2 defaultSettingsRow (defaultTweetbook 0)
    rfl (by decide)).1

/-- C7: on a firing, show_tweet_notification is a silent no-op (nothing
emitted, store unchanged) when the settings row cannot be read; otherwise it
calls get_random_tweet with the row's active_tweetbook_id, and either emits
and returns the tweet that came back, or — when none came back — emits
nothing, changes nothing and returns none. -/
theorem c7_notification_producer (st : Store) (choice now : Nat) :
    (st.settings = none →
      show_tweet_notification st choice now = ⟨none, none, st, true, none⟩) ∧
    (∀ row : SettingsRow, st.settings = some row →
      (∀ t : TweetView,
        (get_random_tweet st row.active_tweetbook_id choice now).result = some t →
        show_tweet_notification st choice now =
          ⟨some t, some t, (get_random_tweet st row.active_tweetbook_id choice now).store,
           false, some (get_random_tweet st row.active_tweetbook_id choice now).connClosed⟩) ∧
      ((get_random_tweet st row.active_tweetbook_id choice now).result = none →
        show_tweet_notification st choice now = ⟨none, none, st, true, some true⟩)) := by
  constructor
  · intro h
    unfold show_tweet_notification
    rw [h]
  · intro row hrow
    constructor
    · intro t ht
      unfold show_tweet_notification
      simp only [hrow]
      cases hg : get_random_tweet st row.active_tweetbook_id choice now with
      | mk res store2 closed2 =>
        rw [hg] at ht
        cases res with
        | some t2 =>
          have ht2 : t2 = t := Option.some.inj ht
          subst ht2
          rfl
        | none => exact Option.noConfusion ht
    · intro hnone
      unfold show_tweet_notification
      simp only [hrow]
      have hg : get_random_tweet st row.active_tweetbook_id choice now =
          ⟨none, st, true⟩ := by
        unfold get_random_tweet at hnone ⊢
        cases hsel : grtSelected st row.active_tweetbook_id choice with
        | some t2 =>
          rw [hsel] at hnone
          exact Option.noConfusion hnone
        | none => rfl
      rw [hg]

/-- Witness for C7: on the one-tweet store the producer emits and returns
that tweet and stamps its last_shown. -/
theorem c7_notification_producer_witness :
    show_tweet_notification oneTweetStore 0 5 =
      ⟨some ⟨1, "T1", "hello", "ann"⟩, some ⟨1, "T1", "hello", "ann"⟩,
       { oneTweetStore with tweets := [⟨1, "T1", "hello", "ann", some 1, 0, some 5⟩] },
       false, some false⟩ :=
  (((c7_notification_producer oneTweetStore 0 5).2 defaultSettingsRow rfl).1
    ⟨1, "T1", "hello", "ann"⟩ (by decide)).trans (by decide)

/-- C8: foreign keys are NOT enforced — the failing inputs the claim says
the store must reject are committed: save_tweet with tweetbook_id 999 on a
store whose only tweetbook is id 1 answers 201 and stores the dangling row,
and update_settings pointing active_tweetbook_id at 999 commits too. -/
theorem c8_dangling_reference_commits :
    (save_tweet freshStore "T1" "hi" "a" (some 999) 7).outcome =
      SaveTweetOutcome.created ⟨1, "T1", "hi", "a", some 999, 7, none⟩ ∧
    (save_tweet freshStore "T1" "hi" "a" (some 999) 7).store.tweets =
      [⟨1, "T1", "hi", "a", some 999, 7, none⟩] ∧
    List.all freshStore.tweetbooks (fun b => b.id != 999) = true ∧
    ((update_settings freshStore ⟨none, some 999, none, none, none⟩).store.settings.map
      SettingsRow.active_tweetbook_id) = some (some 999) ∧
    (update_settings freshStore ⟨none, some 999, none, none, none⟩).rowWritten = true := by
  decide

/-- C9: get_random_tweet and show_tweet_notification leave their sqlite
connections unclosed exactly on the path where a tweet is found and
returned; the empty path does close them. -/
theorem c9_found_path_leaks_connection :
    (get_random_tweet oneTweetStore (some 1) 0 5).result.isSome = true ∧
    (get_random_tweet oneTweetStore (some 1) 0 5).connClosed = false ∧
    (show_tweet_notification oneTweetStore 0 5).result.isSome = true ∧
    (show_tweet_notification oneTweetStore 0 5).connClosed = false ∧
    (show_tweet_notification oneTweetStore 0 5).innerConnClosed = some false ∧
    (get_random_tweet freshStore (some 1) 0 5).result = none ∧
    (get_random_tweet freshStore (some 1) 0 5).connClosed = true ∧
    (show_tweet_notification freshStore 0 5).connClosed = true := by
  decide

/-- C10: init_db is idempotent — a second run returns the very same store —
and from an empty database it leaves exactly one tweetbook (id 1, named
Default) and exactly one settings row with the default values. -/
theorem c10_init_db_idempotent (st : Store) (now now2 : Nat) :
    init_db (init_db st now) now2 = init_db st now ∧
    (init_db (init_db emptyStore now) now2).tweetbooks = [defaultTweetbook now] ∧
    (init_db (init_db emptyStore now) now2).settings = some defaultSettingsRow := by
  have key : ∀ (s : Store) (n n2 : Nat), init_db (init_db s n) n2 = init_db s n := by
    intro s n n2
    unfold init_db
    simp only [Option.getD_some]
    by_cases h : s.tweetbooks.any (fun b => b.id == 1 || b.name == "Default")
    · simp [h]
    · simp [h, List.any_append, defaultTweetbook]
  refine ⟨key st now now2, ?_, ?_⟩
  · rw [key]
    rfl
  · rw [key]
    rfl

end TweetUp
